import Mathlib

/-!
Verification of the AMC chatbot query pipeline (`src/utils.py`) against its
natural-language specification.

The pipeline in `src/utils.py` is shallowly embedded below.  Remote services
(the OpenAI embedding endpoint, the Pinecone index, the OpenAI chat endpoint)
are modelled as oracle functions returning `Except PyErr _`; each Python
`try/except` block becomes an explicit `match` on the oracle's result, exactly
mirroring which exception classes the source catches and what each handler
returns.  Python strings are Lean `String`s (character-level operations are
carried out on `String.data`); similarity scores are modelled as `ℚ`.
-/

namespace AmcBot

/-- Exception classes distinguished by the handlers in `src/utils.py`:
`openai.error.OpenAIError`, `pinecone.PineconeException`, and the catch-all
`Exception`. -/
inductive PyErr where
  | openAIError
  | pineconeError
  | otherError
deriving DecidableEq

/-- Metadata carried by a Pinecone match.  `match.metadata.get("text", "")`
and `match.metadata.get("reference", "")` default to the empty string, so a
missing field is modelled as `""`. -/
structure MatchMeta where
  text : String
  reference : String
deriving DecidableEq

/-- One Pinecone match: a similarity score plus metadata.  The Python guard
`if match.metadata:` treats `None` (and an empty dict) as absent, modelled by
`Option`. -/
structure PineconeMatch where
  score : ℚ
  metadata : Option MatchMeta
deriving DecidableEq

/-- One chat message handed to the generative model. -/
structure ChatMessage where
  role : String
  content : String
deriving DecidableEq

/-- The Pinecone index object: maps a query vector and a namespace to the
match list of `index.query(...)['matches']` (with `top_k=5` and
`include_metadata=True` fixed at the call site), or raises. -/
def Index : Type :=
  List ℚ → String → Except PyErr (List PineconeMatch)

/-- The remote OpenAI endpoints used by `src/utils.py`: `embed` models
`openai.Embedding.create` (already projected to `data[0].embedding`), `chat`
models `openai.ChatCompletion.create` (already projected to
`choices[0].message.content`).  An `Except.error` models the call raising. -/
structure Env where
  embed : String → Except PyErr (List ℚ)
  chat : List ChatMessage → Except PyErr String

/-- Replace the chat oracle of an environment, keeping the embedding oracle. -/
def with_chat (env : Env) (c : List ChatMessage → Except PyErr String) : Env :=
  ⟨env.embed, c⟩

/-! ## Input sanitizer (`sanitize_query`, src/utils.py lines 61-74)

`" ".join(query.split())[:1000]`: split on whitespace runs discarding empty
pieces, re-join with single spaces, truncate to 1000 characters. -/

/-- Python `str.split()` with no separator, on a character list: splits on
runs of whitespace and discards empty pieces.  `acc` holds the characters of
the word currently being read, in reverse. -/
def py_split_aux : List Char → List Char → List (List Char)
  | [], acc => if acc = [] then [] else [acc.reverse]
  | c :: cs, acc =>
    if c.isWhitespace then
      if acc = [] then py_split_aux cs [] else acc.reverse :: py_split_aux cs []
    else
      py_split_aux cs (c :: acc)

/-- Python `query.split()` on the character list of the query. -/
def py_split (l : List Char) : List (List Char) :=
  py_split_aux l []

/-- Python `" ".join(words)` on character lists. -/
def py_join_space : List (List Char) → List Char
  | [] => []
  | [w] => w
  | w :: ws => w ++ ' ' :: py_join_space ws

/-- The sanitized query before the `[:1000]` truncation:
`" ".join(query.split())`. -/
def sanitize_pre (query : String) : List Char :=
  py_join_space (py_split query.data)

/-- `sanitize_query` (src/utils.py lines 61-74):
`" ".join(query.split())[:1000]`. -/
def sanitize_query (query : String) : String :=
  String.mk ((sanitize_pre query).take 1000)

/-! ## Response validator (`validate_response`, src/utils.py lines 197-212) -/

/-- `validate_response`: rejects an empty response (`if not response`) and a
response shorter than 10 characters. -/
def validate_response (response : String) : Bool :=
  if response = "" then false
  else if response.length < 10 then false
  else true

/-! ## Result aggregation (`process_pinecone_results`, src/utils.py 76-101) -/

/-- The loop of `process_pinecone_results`: walks the matches in arrival
order, collecting the non-empty `text` fields and, independently, the
non-empty `reference` fields of every match whose metadata is present. -/
def collect_results : List PineconeMatch → List String × List String
  | [] => ([], [])
  | m :: rest =>
    let pr := collect_results rest
    match m.metadata with
    | none => pr
    | some md =>
        ((if md.text = "" then pr.1 else md.text :: pr.1),
         (if md.reference = "" then pr.2 else md.reference :: pr.2))

/-- Python `sep.join(pieces)` on strings. -/
def py_str_join (sep : String) : List String → String
  | [] => ""
  | [s] => s
  | s :: ss => s ++ sep ++ py_str_join sep ss

/-- Python `s.strip()`: removes leading and trailing whitespace (this models
the `.strip()` applied to the chat completion's content). -/
def py_strip (s : String) : String :=
  String.mk (((s.data.dropWhile Char.isWhitespace).reverse.dropWhile
    Char.isWhitespace).reverse)

/-- `process_pinecone_results`: returns the space-joined context parts and
the list of references. -/
def process_pinecone_results (ms : List PineconeMatch) : String × List String :=
  let pr := collect_results ms
  (py_str_join " " pr.1, pr.2)

/-! ## Fixed Gujarati user-facing strings (src/utils.py) -/

/-- Apology returned by `generate_response` when the chat call raises
`openai.error.OpenAIError` (src/utils.py line 178). -/
def generation_error_msg : String :=
  "માફ કરશો, જવાબ જનરેટ કરવામાં ભૂલ આવી છે. કૃપા કરી થોડી વાર પછી ફરી પ્રયાસ કરો."

/-- Apology returned by `generate_response` when the chat call raises any
other `Exception` (src/utils.py line 182). -/
def technical_fault_msg : String :=
  "માફ કરશો, સિસ્ટમમાં તકનીકી ખામી આવી છે. કૃપા કરી થોડી વાર પછી ફરી પ્રયાસ કરો."

/-- No-results message of `process_user_query` (src/utils.py line 230).  The
source literally contains the Devanagari letter ई inside the Gujarati text. -/
def no_results_msg : String :=
  "માફ કરશો, કોई સંબંધિત માહિતી મળી નથી."

/-- Message returned when `validate_response` rejects the generated response
(src/utils.py line 240). -/
def invalid_response_msg : String :=
  "માફ કરશો, યોગ્ય જવાબ જનરેટ કરવામાં અસમર્થ છું."

/-- Generic failure message of the orchestrator boundary handler
(src/utils.py line 246). -/
def generic_failure_msg : String :=
  "માફ કરશો, પ્રક્રિયા દરમિયાન ભૂલ આવી છે."

/-! ## Embedding client (`get_query_embedding`, src/utils.py lines 38-59) -/

/-- `get_query_embedding`: calls the embedding endpoint; both `OpenAIError`
and the catch-all handler return the empty list. -/
def get_query_embedding (env : Env) (query : String) : List ℚ :=
  match env.embed query with
  | Except.ok v => v
  | Except.error _ => []

/-! ## Vector store client (`query_pinecone`, src/utils.py lines 103-139) -/

/-- `query_pinecone`: sanitizes the query, embeds it, short-circuits to `[]`
on an empty embedding, otherwise queries the index; `PineconeException` and
the catch-all handler both return `[]`. -/
def query_pinecone (env : Env) (index : Index) (ns query : String) :
    List PineconeMatch :=
  let clean_query := sanitize_query query
  let query_vector := get_query_embedding env clean_query
  if query_vector = [] then []
  else
    match index query_vector ns with
    | Except.ok ms => ms
    | Except.error _ => []

/-! ## Response generator (`generate_response`, src/utils.py lines 141-182)

`SYSTEM_PROMPT` and `get_chat_prompt` are imported from `src/prompts.py`,
which is not among the provided source files; they are modelled from the
spec. -/

/-- Modelled from the spec: `SYSTEM_PROMPT` lives in the missing
`src/prompts.py`; the spec describes it as "a fixed system instruction
(answer-in-Gujarati persona)".  Its exact wording is irrelevant to every
claim below; only its fixedness is used. -/
def SYSTEM_PROMPT : String :=
  "You are a helpful assistant for the Ahmedabad Municipal Corporation. Answer in Gujarati."

/-- Modelled from the spec: `get_chat_prompt` lives in the missing
`src/prompts.py`; the spec describes its result as "a user message combining
context + query".  It is modelled as a template that contains both arguments
verbatim. -/
def get_chat_prompt (context user_input : String) : String :=
  "Context: " ++ context ++ "\n\nQuestion: " ++ user_input

/-- The two-message prompt built by `generate_response` (src/utils.py lines
155-163): a fixed system message, and a user message from `get_chat_prompt`
with `"\n\nReferences:\n" + "\n".join(references)` appended when the
reference list is non-empty (Python: `if references:`). -/
def build_messages (context user_input : String) (references : List String) :
    List ChatMessage :=
  let content := get_chat_prompt context user_input
  let content :=
    if references = [] then content
    else content ++ "\n\nReferences:\n" ++ py_str_join "\n" references
  [⟨"system", SYSTEM_PROMPT⟩, ⟨"user", content⟩]

/-- `generate_response`: calls the chat endpoint on the built messages and
trims the returned content; on `OpenAIError` returns the generation apology,
on any other exception the technical-fault apology. -/
def generate_response (env : Env) (context user_input : String)
    (references : List String) : String :=
  match env.chat (build_messages context user_input references) with
  | Except.ok content => py_strip content
  | Except.error PyErr.openAIError => generation_error_msg
  | Except.error _ => technical_fault_msg

/-! ## Pipeline orchestrator (`process_user_query`, src/utils.py 214-246) -/

/-- The `try:` block of `process_user_query` (src/utils.py lines 226-242):
retrieve, short-circuit on no matches, aggregate, generate, validate. -/
def process_user_query_try (env : Env) (index : Index) (query ns : String) :
    Except PyErr (String × Bool) :=
  let ms := query_pinecone env index ns query
  if ms = [] then Except.ok (no_results_msg, false)
  else
    let pr := process_pinecone_results ms
    let response := generate_response env pr.1 query pr.2
    if validate_response response = false then
      Except.ok (invalid_response_msg, false)
    else Except.ok (response, true)

/-- The `except Exception:` boundary of `process_user_query` (src/utils.py
lines 244-246): a normal result passes through, an exception reaching the
boundary becomes the fixed generic failure message with `success = false`. -/
def orchestrate (body : Except PyErr (String × Bool)) : String × Bool :=
  match body with
  | Except.ok r => r
  | Except.error _ => (generic_failure_msg, false)

/-- `process_user_query` (src/utils.py lines 214-246). -/
def process_user_query (env : Env) (index : Index) (query ns : String) :
    String × Bool :=
  orchestrate (process_user_query_try env index query ns)

/-! ## Multi-namespace aggregation path -/

/-- Modelled from the spec: the multi-namespace aggregation entry point (the
fan-out used "when no topic is pre-selected") is not among the provided
source files; only the single-namespace path appears in `src/utils.py`.  Per
the spec it "issues one retrieval per known namespace, concatenates all
returned matches into one list, sorts descending by score, and truncates to
the global top 5" (tie-break on equal scores is explicitly unspecified, so
any sort for the descending-score relation is a faithful model). -/
def query_all_namespaces (retrieve : String → List PineconeMatch)
    (namespaces : List String) : List PineconeMatch :=
  (List.insertionSort (fun a b => b.score ≤ a.score)
    ((namespaces.map retrieve).flatten)).take 5

/-! ## Spec-side definitions used for refinement comparisons -/

/-- The context list as the spec describes it: "the non-empty text metadata
fields in match-arrival order". -/
def spec_context_texts (ms : List PineconeMatch) : List String :=
  ms.filterMap (fun m =>
    m.metadata.bind (fun md => if md.text = "" then none else some md.text))

/-- The reference list as the spec describes it: "the non-empty reference
metadata fields in match-arrival order", filtered independently of the text
fields. -/
def spec_reference_labels (ms : List PineconeMatch) : List String :=
  ms.filterMap (fun m =>
    m.metadata.bind (fun md =>
      if md.reference = "" then none else some md.reference))

/-! ## Whitespace predicates for the sanitizer claims -/

/-- No two consecutive characters are both whitespace. -/
def no_ws_run (l : List Char) : Prop :=
  List.Chain' (fun a b => (a.isWhitespace && b.isWhitespace) = false) l

/-- Neither the first nor the last character is whitespace. -/
def no_edge_ws (l : List Char) : Prop :=
  (∀ c ∈ l.head?, c.isWhitespace = false) ∧
  (∀ c ∈ l.getLast?, c.isWhitespace = false)

/-! ## Helper lemmas -/

theorem validate_response_true_iff (r : String) :
    validate_response r = true ↔ (r ≠ "" ∧ 10 ≤ r.length) := by
  unfold validate_response
  by_cases h : r = ""
  · simp [h]
  · by_cases hl : r.length < 10
    · simp only [h, if_false, hl, if_true, Bool.false_eq_true, false_iff]
      rintro ⟨-, hge⟩
      omega
    · simp only [h, if_false, hl, if_true, true_iff]
      exact ⟨h, by omega⟩

theorem collect_results_eq (ms : List PineconeMatch) :
    collect_results ms = (spec_context_texts ms, spec_reference_labels ms) := by
  induction ms with
  | nil => rfl
  | cons m rest ih =>
    unfold collect_results
    rw [ih]
    cases hm : m.metadata with
    | none =>
      simp [spec_context_texts, spec_reference_labels, List.filterMap_cons, hm]
    | some md =>
      by_cases ht : md.text = "" <;> by_cases hr : md.reference = "" <;>
        simp [spec_context_texts, spec_reference_labels, List.filterMap_cons,
          hm, ht, hr]

theorem query_pinecone_eq_nil {env : Env} {index : Index} {ns query : String}
    (h : index (get_query_embedding env (sanitize_query query)) ns =
      Except.ok []) :
    query_pinecone env index ns query = [] := by
  unfold query_pinecone
  by_cases hv : get_query_embedding env (sanitize_query query) = []
  · simp [hv]
  · simp only [hv, if_false, h]

/-! ## Claims -/

/-- Claim C7: `validate_response` returns `false` exactly when the response
is empty or shorter than 10 characters; in particular it rejects `""` and
`"short"` and accepts `"this is long enough"`. -/
theorem claim_C7 :
    (∀ r : String, validate_response r = true ↔ (r ≠ "" ∧ 10 ≤ r.length)) ∧
    validate_response "" = false ∧
    validate_response "short" = false ∧
    validate_response "this is long enough" = true :=
  ⟨validate_response_true_iff, by decide, by decide, by decide⟩

/-- Claim C6: `process_pinecone_results` returns the space-joined
concatenation of the non-empty text fields in match-arrival order together
with the list of non-empty reference fields in match-arrival order, the two
lists being filtered independently of one another (a match lacking a text
field can still contribute a reference and vice versa). -/
theorem claim_C6 (ms : List PineconeMatch) :
    process_pinecone_results ms =
      (py_str_join " " (spec_context_texts ms), spec_reference_labels ms) := by
  unfold process_pinecone_results
  rw [collect_results_eq]

/-- Claim C4: `process_user_query` is the orchestrator boundary applied to
its `try` block: for every input it returns a `String × Bool` pair obtained
from a successful run of the block (with the modelled effects the block
always completes), and an exception reaching the boundary is converted by
`orchestrate` into the fixed generic Gujarati failure message with
`success = false`. -/
theorem claim_C4 (env : Env) (index : Index) (query ns : String) :
    (∃ p, process_user_query_try env index query ns = Except.ok p ∧
      process_user_query env index query ns = p) ∧
    (∀ e, orchestrate (Except.error e) = (generic_failure_msg, false)) := by
  refine ⟨?_, fun e => rfl⟩
  unfold process_user_query process_user_query_try orchestrate
  dsimp only
  split
  · exact ⟨_, rfl, rfl⟩
  · split
    · exact ⟨_, rfl, rfl⟩
    · exact ⟨_, rfl, rfl⟩

/-- Claim C2: when the vector store returns an empty match list for the
embedded (sanitized) query, `process_user_query` returns exactly the fixed
Gujarati no-results message with `success = false`, and does so for every
chat oracle — i.e. the response generator is never consulted on that call. -/
theorem claim_C2 (env : Env) (index : Index) (query ns : String)
    (h : index (get_query_embedding env (sanitize_query query)) ns =
      Except.ok []) :
    process_user_query env index query ns = (no_results_msg, false) ∧
    ∀ c, process_user_query (with_chat env c) index query ns =
      (no_results_msg, false) := by
  have key : ∀ env' : Env, env'.embed = env.embed →
      process_user_query env' index query ns = (no_results_msg, false) := by
    intro env' he
    have h' : index (get_query_embedding env' (sanitize_query query)) ns =
        Except.ok [] := by
      unfold get_query_embedding
      rw [he]
      exact h
    have hq := query_pinecone_eq_nil h'
    unfold process_user_query process_user_query_try orchestrate
    simp [hq]
  exact ⟨key env rfl, fun c => key (with_chat env c) rfl⟩

/-- Claim C8: when the embedding client degrades to the empty vector,
`query_pinecone` short-circuits to the empty match list for every possible
vector store (the store is never consulted), and `process_user_query`
consequently takes the same no-results branch. -/
theorem claim_C8 (env : Env) (query ns : String)
    (h : get_query_embedding env (sanitize_query query) = []) :
    (∀ index, query_pinecone env index ns query = []) ∧
    (∀ index, process_user_query env index query ns =
      (no_results_msg, false)) := by
  have hq : ∀ index : Index, query_pinecone env index ns query = [] := by
    intro index
    unfold query_pinecone
    simp [h]
  refine ⟨hq, fun index => ?_⟩
  unfold process_user_query process_user_query_try orchestrate
  simp [hq index]

/-! ## Concrete environments used by witnesses and counterexamples -/

/-- Environment whose remote calls all succeed. -/
def env_ok : Env :=
  ⟨fun _ => Except.ok [1], fun _ => Except.ok "this is a long generated answer"⟩

/-- Environment whose embedding endpoint returns the empty vector. -/
def env_empty_embed : Env :=
  ⟨fun _ => Except.ok [], fun _ => Except.ok "this is a long generated answer"⟩

/-- Environment whose chat endpoint raises `openai.error.OpenAIError`. -/
def env_gen_fail : Env :=
  ⟨fun _ => Except.ok [1], fun _ => Except.error PyErr.openAIError⟩

/-- Index that returns no matches. -/
def index_empty : Index := fun _ _ => Except.ok []

/-- Index that returns a single match carrying both text and reference. -/
def index_one : Index :=
  fun _ _ => Except.ok [⟨1, some ⟨"some context text", "some ref"⟩⟩]

/-- Witness for claim C2 at a concrete input. -/
theorem claim_C2_witness :
    index_empty (get_query_embedding env_ok (sanitize_query "q")) "ns" =
      Except.ok [] ∧
    process_user_query env_ok index_empty "q" "ns" = (no_results_msg, false) :=
  ⟨rfl, (claim_C2 env_ok index_empty "q" "ns" rfl).1⟩

/-- Witness for claim C8 at a concrete input. -/
theorem claim_C8_witness :
    get_query_embedding env_empty_embed (sanitize_query "q") = [] ∧
    query_pinecone env_empty_embed index_one "ns" "q" = [] ∧
    process_user_query env_empty_embed index_one "q" "ns" =
      (no_results_msg, false) :=
  ⟨rfl, (claim_C8 env_empty_embed "q" "ns" rfl).1 index_one,
    (claim_C8 env_empty_embed "q" "ns" rfl).2 index_one⟩

/-- Counterexample to claim C1: with one retrieved match and a chat endpoint
that raises `OpenAIError`, `process_user_query` returns the generation
apology with `success = true`, not `false` — the apology passes the length
validator, so the pipeline flags the call as successful. -/
theorem claim_C1_counterexample :
    process_user_query env_gen_fail index_one "q" "ns" =
      (generation_error_msg, true) ∧
    process_user_query env_gen_fail index_one "q" "ns" ≠
      (generation_error_msg, false) := by
  constructor
  · decide
  · decide

/-- Claim C1 (amended): if the generative model call raises an OpenAI API
error while matches were retrieved, the pipeline returns exactly the fixed
Gujarati generation-apology string, but with `success = true`: the apology is
itself at least 10 characters long, so `validate_response` accepts it. -/
theorem claim_C1_amended (env : Env) (index : Index) (query ns : String)
    (hchat : ∀ ms, env.chat ms = Except.error PyErr.openAIError)
    (hm : query_pinecone env index ns query ≠ []) :
    process_user_query env index query ns = (generation_error_msg, true) := by
  unfold process_user_query process_user_query_try orchestrate
  have hg : ∀ c u r, generate_response env c u r = generation_error_msg := by
    intro c u r
    unfold generate_response
    rw [hchat]
  simp only [hm, if_false, hg]
  have : validate_response generation_error_msg = true := by decide
  simp [this]

/-- Witness for the amended claim C1 at a concrete input. -/
theorem claim_C1_amended_witness :
    (∀ ms, env_gen_fail.chat ms = Except.error PyErr.openAIError) ∧
    query_pinecone env_gen_fail index_one "ns" "q" ≠ [] ∧
    process_user_query env_gen_fail index_one "q" "ns" =
      (generation_error_msg, true) :=
  ⟨fun _ => rfl, by decide,
    claim_C1_amended env_gen_fail index_one "q" "ns" (fun _ => rfl) (by decide)⟩

/-- Claim C10: every `success = true` result of `process_user_query` carries
a response that passed the validator gate: it is non-empty and at least 10
characters long. -/
theorem claim_C10 (env : Env) (index : Index) (query ns s : String)
    (h : process_user_query env index query ns = (s, true)) :
    s ≠ "" ∧ 10 ≤ s.length := by
  unfold process_user_query process_user_query_try orchestrate at h
  by_cases hm : query_pinecone env index ns query = []
  · simp [hm] at h
  · simp only [hm, if_false] at h
    by_cases hv : validate_response (generate_response env
        (process_pinecone_results (query_pinecone env index ns query)).1 query
        (process_pinecone_results (query_pinecone env index ns query)).2) =
        false
    · simp [hv] at h
    · simp only [hv, if_false] at h
      have hs : s = generate_response env
          (process_pinecone_results (query_pinecone env index ns query)).1
          query
          (process_pinecone_results (query_pinecone env index ns query)).2 :=
        (Prod.mk.injEq _ _ _ _ ▸ h).1.symm
      rw [hs]
      exact (validate_response_true_iff _).mp (Bool.not_eq_false _ ▸ hv)

/-- Witness for claim C10 at a concrete successful run. -/
theorem claim_C10_witness :
    process_user_query env_ok index_one "q" "ns" =
      ("this is a long generated answer", true) ∧
    ("this is a long generated answer" ≠ "" ∧
      10 ≤ ("this is a long generated answer" : String).length) :=
  ⟨by decide,
    claim_C10 env_ok index_one "q" "ns" "this is a long generated answer"
      (by decide)⟩

/-- Chat oracle that reports whether it was handed the prompt built from the
raw query `"a  b"` (double space) or some other prompt. -/
def chat_probe : List ChatMessage → Except PyErr String :=
  fun ms =>
    Except.ok (if ms = build_messages "CTX" "a  b" [] then
      "raw query prompt seen" else "other prompt seen xx")

/-- Environment embedding every query to the same vector and probing the
chat prompt. -/
def env_probe : Env := ⟨fun _ => Except.ok [1], chat_probe⟩

/-- Index returning one match whose metadata text is `"CTX"` with no
reference. -/
def index_ctx : Index := fun _ _ => Except.ok [⟨1, some ⟨"CTX", ""⟩⟩]

/-- Counterexample to claim C9: on the query `"a  b"` the sanitized form is
`"a b"`, yet the pipeline hands the chat endpoint the prompt built from the
raw `"a  b"` — the probing oracle observes the raw-query prompt, so the
generator is not given the sanitized text that was embedded. -/
theorem claim_C9_counterexample :
    sanitize_query "a  b" ≠ "a  b" ∧
    build_messages "CTX" "a  b" [] ≠
      build_messages "CTX" (sanitize_query "a  b") [] ∧
    process_user_query env_probe index_ctx "a  b" "ns" =
      ("raw query prompt seen", true) := by
  refine ⟨by decide, by decide, by decide⟩

/-- Claim C9 (amended): the response generator is invoked on exactly the
two-message prompt built by `build_messages` from the aggregated context,
the raw (unsanitized) user query, and the reference list: any two chat
oracles that agree on that single prompt make `process_user_query` return
identical results. -/
theorem claim_C9_amended (env : Env) (index : Index) (query ns : String)
    (c₁ c₂ : List ChatMessage → Except PyErr String)
    (h : c₁ (build_messages
        (process_pinecone_results (query_pinecone env index ns query)).1 query
        (process_pinecone_results (query_pinecone env index ns query)).2) =
      c₂ (build_messages
        (process_pinecone_results (query_pinecone env index ns query)).1 query
        (process_pinecone_results (query_pinecone env index ns query)).2)) :
    process_user_query (with_chat env c₁) index query ns =
      process_user_query (with_chat env c₂) index query ns := by
  have hq : ∀ c, query_pinecone (with_chat env c) index ns query =
      query_pinecone env index ns query := fun _ => rfl
  unfold process_user_query process_user_query_try
  simp only [hq]
  by_cases hm : query_pinecone env index ns query = []
  · simp [hm]
  · simp only [hm, if_false]
    unfold generate_response
    simp only [with_chat]
    rw [h]

/-- Chat oracle answering only two-message prompts. -/
def chat_two_only : List ChatMessage → Except PyErr String :=
  fun ms =>
    if ms.length = 2 then Except.ok "this is a long generated answer"
    else Except.error PyErr.otherError

/-- Witness for the amended claim C9: a constant oracle and an oracle that
only answers two-message prompts agree on the pipeline's single prompt, and
the two pipeline runs coincide. -/
theorem claim_C9_amended_witness :
    (fun _ => Except.ok "this is a long generated answer" :
        List ChatMessage → Except PyErr String)
      (build_messages
        (process_pinecone_results
          (query_pinecone env_ok index_one "ns" "q")).1 "q"
        (process_pinecone_results
          (query_pinecone env_ok index_one "ns" "q")).2) =
      chat_two_only (build_messages
        (process_pinecone_results
          (query_pinecone env_ok index_one "ns" "q")).1 "q"
        (process_pinecone_results
          (query_pinecone env_ok index_one "ns" "q")).2) ∧
    process_user_query
        (with_chat env_ok (fun _ => Except.ok "this is a long generated answer"))
        index_one "q" "ns" =
      process_user_query (with_chat env_ok chat_two_only) index_one "q" "ns" :=
  ⟨rfl,
    claim_C9_amended env_ok index_one "q" "ns"
      (fun _ => Except.ok "this is a long generated answer") chat_two_only
      rfl⟩

/-- Claim C3: the multi-namespace path — one retrieval per namespace,
concatenation, descending sort by score, truncation to the top 5 — always
yields a match sequence whose scores are monotonically non-increasing and
whose length is at most 5, for every retrieval function and namespace set
(in particular for heterogeneous scores). -/
theorem claim_C3 (retrieve : String → List PineconeMatch)
    (namespaces : List String) :
    List.Sorted (· ≥ ·)
      ((query_all_namespaces retrieve namespaces).map PineconeMatch.score) ∧
    (query_all_namespaces retrieve namespaces).length ≤ 5 := by
  constructor
  · have hs : List.Sorted (fun a b : PineconeMatch => b.score ≤ a.score)
        (List.insertionSort (fun a b => b.score ≤ a.score)
          ((namespaces.map retrieve).flatten)) := by
      haveI : IsTotal PineconeMatch (fun a b => b.score ≤ a.score) :=
        ⟨fun a b => le_total b.score a.score⟩
      haveI : IsTrans PineconeMatch (fun a b => b.score ≤ a.score) :=
        ⟨fun a b c hab hbc => le_trans hbc hab⟩
      exact List.sorted_insertionSort _ _
    have ht : List.Sorted (fun a b : PineconeMatch => b.score ≤ a.score)
        (query_all_namespaces retrieve namespaces) :=
      hs.sublist (List.take_sublist _ _)
    exact List.pairwise_map.mpr (ht.imp fun h => h)
  · unfold query_all_namespaces
    exact List.length_take_le _ _

/-! ## Sanitizer lemmas for claim C5 -/

theorem py_split_aux_words (l : List Char) :
    ∀ acc : List Char, (∀ c ∈ acc, c.isWhitespace = false) →
      ∀ w ∈ py_split_aux l acc, w ≠ [] ∧ ∀ c ∈ w, c.isWhitespace = false := by
  induction l with
  | nil =>
    intro acc hacc w hw
    unfold py_split_aux at hw
    by_cases h : acc = []
    · simp [h] at hw
    · simp only [h, if_false, List.mem_singleton] at hw
      subst hw
      refine ⟨by simpa using h, fun c hc => hacc c (List.mem_reverse.mp hc)⟩
  | cons c cs ih =>
    intro acc hacc w hw
    unfold py_split_aux at hw
    by_cases hws : c.isWhitespace
    · simp only [hws, if_true] at hw
      by_cases h : acc = []
      · simp only [h, if_true] at hw
        exact ih [] (by simp) w hw
      · simp only [h, if_false, List.mem_cons] at hw
        rcases hw with hw | hw
        · subst hw
          refine ⟨by simpa using h, fun d hd => hacc d (List.mem_reverse.mp hd)⟩
        · exact ih [] (by simp) w hw
    · simp only [hws, if_false] at hw
      refine ih (c :: acc) ?_ w hw
      intro d hd
      rcases List.mem_cons.mp hd with rfl | hd
      · exact Bool.not_eq_true _ ▸ hws
      · exact hacc d hd

theorem py_join_space_ne_nil {w : List Char} (ws : List (List Char))
    (hw : w ≠ []) : py_join_space (w :: ws) ≠ [] := by
  cases ws with
  | nil => simpa [py_join_space] using hw
  | cons w' ws' => simp [py_join_space]

theorem chain_of_all_nonws (l : List Char)
    (h : ∀ c ∈ l, c.isWhitespace = false) : no_ws_run l := by
  induction l with
  | nil => exact List.chain'_nil
  | cons a t ih =>
    cases t with
    | nil => exact List.chain'_singleton a
    | cons b t' =>
      rw [no_ws_run, List.chain'_cons]
      refine ⟨by simp [h a (by simp)], ih ?_⟩
      intro c hc
      exact h c (List.mem_cons_of_mem a hc)

theorem py_join_space_props (ws : List (List Char))
    (h : ∀ w ∈ ws, w ≠ [] ∧ ∀ c ∈ w, c.isWhitespace = false) :
    no_ws_run (py_join_space ws) ∧ no_edge_ws (py_join_space ws) := by
  induction ws with
  | nil => simp [py_join_space, no_ws_run, no_edge_ws]
  | cons w ws' ih =>
    cases ws' with
    | nil =>
      obtain ⟨hne, hnws⟩ := h w (by simp)
      refine ⟨chain_of_all_nonws w hnws, ?_, ?_⟩
      · intro c hc
        exact hnws c (List.mem_of_mem_head? hc)
      · intro c hc
        exact hnws c (List.mem_of_mem_getLast? hc)
    | cons w' ws'' =>
      obtain ⟨hne, hnws⟩ := h w (by simp)
      have ihJ := ih (fun u hu => h u (List.mem_cons_of_mem w hu))
      have hJne : py_join_space (w' :: ws'') ≠ [] :=
        py_join_space_ne_nil ws'' (h w' (by simp)).1
      have hjoin : py_join_space (w :: w' :: ws'') =
          w ++ ' ' :: py_join_space (w' :: ws'') := rfl
      rw [hjoin]
      obtain ⟨ihchain, ihhead, ihlast⟩ := ihJ
      constructor
      · rw [no_ws_run, List.chain'_append]
        refine ⟨chain_of_all_nonws w hnws, ?_, ?_⟩
        · rw [List.chain'_cons']
          refine ⟨fun y hy => ?_, ihchain⟩
          have : y.isWhitespace = false := ihhead y hy
          simp [this]
        · intro x hx y hy
          have hxw : x.isWhitespace = false :=
            hnws x (List.mem_of_mem_getLast? hx)
          simp [hxw]
      · constructor
        · intro c hc
          obtain ⟨a, as, rfl⟩ := List.exists_cons_of_ne_nil hne
          simp only [List.cons_append, List.head?_cons, Option.mem_some_iff]
            at hc
          rw [← hc]
          exact hnws a (by simp)
        · intro c hc
          rw [List.getLast?_append_of_ne_nil _ (List.cons_ne_nil _ _)] at hc
          have h2 : (' ' :: py_join_space (w' :: ws'')).getLast? =
              (py_join_space (w' :: ws'')).getLast? := by
            have : ' ' :: py_join_space (w' :: ws'') =
                [' '] ++ py_join_space (w' :: ws'') := rfl
            rw [this, List.getLast?_append_of_ne_nil _ hJne]
          rw [h2] at hc
          exact ihlast c hc

/-- Claim C5: for every input, the sanitized query has length at most 1000,
contains no run of two or more consecutive whitespace characters, and the
pre-truncation result `" ".join(query.split())` starts and ends with a
non-whitespace character. -/
theorem claim_C5 (s : String) :
    (sanitize_query s).length ≤ 1000 ∧
    no_ws_run (sanitize_query s).data ∧
    no_edge_ws (sanitize_pre s) := by
  have hwords : ∀ w ∈ py_split s.data,
      w ≠ [] ∧ ∀ c ∈ w, c.isWhitespace = false :=
    py_split_aux_words s.data [] (by simp)
  have hjoin := py_join_space_props (py_split s.data) hwords
  refine ⟨?_, ?_, hjoin.2⟩
  · have hlen : (sanitize_query s).length =
        ((sanitize_pre s).take 1000).length := rfl
    rw [hlen]
    exact List.length_take_le _ _
  · have hdata : (sanitize_query s).data = (sanitize_pre s).take 1000 := rfl
    rw [no_ws_run, hdata]
    exact List.Chain'.take hjoin.1 1000
